import Mathlib

/-!
Shallow embedding of the REGTECH collection pipeline of the `blacklist`
repository (files `src/core/collectors/regtech_auth.py`,
`regtech_collector_auth.py`, `regtech_collector_core.py`,
`regtech_collector_data.py`, `regtech_data_processor.py`), together with
proofs settling the frozen claims C1-C10 about the natural-language spec.

Python dict-shaped threat records are modelled as a structure whose fields
are plain strings, with the empty string standing for an absent key
(Python truthiness tests such as `if not ip` identify the two).
-/

set_option autoImplicit false

/-- A threat record as passed between the collector components.  Mirrors the
dict shape produced by `RegtechDataProcessor` (keys `ip`, `threat_level`,
`country`, `attack_type`, `detection_date`, `source`); an absent key is
modelled as `""`. -/
structure ThreatRecord where
  ip : String
  threat_level : String
  country : String
  attack_type : String
  detection_date : String
  source : String
deriving DecidableEq

/-- Inner loop of `RegtechDataProcessor.remove_duplicates`
(`regtech_data_processor.py` lines 140-151): walk the list keeping a set of
seen ips; an item is kept when its `ip` is truthy (non-empty) and not yet
seen.  The Python `set` is modelled as the list of seen keys. -/
def rdGo (seen : List String) : List ThreatRecord → List ThreatRecord
  | [] => []
  | item :: rest =>
    if item.ip ≠ "" ∧ item.ip ∉ seen then
      item :: rdGo (item.ip :: seen) rest
    else
      rdGo seen rest

/-- `RegtechDataProcessor.remove_duplicates`: stable first-occurrence-wins
deduplication keyed on `ip`, starting from an empty seen-set. -/
def removeDuplicates (data : List ThreatRecord) : List ThreatRecord :=
  rdGo [] data

/-- Python dict insertion: updating an existing key keeps its position,
a fresh key is appended at the end (insertion order preserved). -/
def dictInsert (m : List (String × String)) (k v : String) :
    List (String × String) :=
  match m with
  | [] => [(k, v)]
  | (k', v') :: rest =>
    if k' = k then (k, v) :: rest else (k', v') :: dictInsert rest k v

/-- Python `s.split(sep)` for a one-character separator: split at every
occurrence, keeping empty pieces (`"".split(";") == [""]`). -/
def splitOnChar (sep : Char) : List Char → List (List Char)
  | [] => [[]]
  | c :: rest =>
    let r := splitOnChar sep rest
    if c = sep then [] :: r
    else
      match r with
      | [] => [[c]]
      | g :: gs => (c :: g) :: gs

/-- Python `s.strip()`: drop whitespace from both ends. -/
def stripChars (cs : List Char) : List Char :=
  ((cs.dropWhile Char.isWhitespace).reverse.dropWhile Char.isWhitespace).reverse

/-- Python `s.split("=", 1)` on a piece known to contain `=`: the part
before the first `=` and everything after it. -/
def splitFirstEq : List Char → List Char × List Char
  | [] => ([], [])
  | c :: rest =>
    if c = '=' then ([], rest)
    else
      let r := splitFirstEq rest
      (c :: r.1, r.2)

/-- Cookie-string parsing loop of `RegtechAuth.set_cookie_string`
(`regtech_auth.py` lines 30-35): split the raw string on `;`; every piece
containing `=` is stripped and split on the first `=` into a key/value pair
inserted into the dict; pieces without `=` are ignored. -/
def parseCookiePairs (raw : String) : List (String × String) :=
  (splitOnChar ';' raw.data).foldl
    (fun acc pair =>
      if pair.contains '=' then
        let p := stripChars pair
        let kv := splitFirstEq p
        dictInsert acc (String.mk kv.1) (String.mk kv.2)
      else acc)
    []

/-- Mutable state of `RegtechAuth` relevant to cookie handling:
`cookie_auth_mode` flag and the `cookies` dict. -/
structure AuthState where
  cookieAuthMode : Bool
  cookies : List (String × String)
deriving DecidableEq

/-- `RegtechAuth.set_cookie_string` (`regtech_auth.py` lines 25-46): a truthy
(non-empty) raw string is parsed and replaces the cookie dict with cookie
mode enabled; an empty raw string only clears the mode flag (the dict is
left untouched).  The surrounding `try/except` has no reachable raising
path, so the operation is total. -/
def setCookieString (st : AuthState) (raw : String) : AuthState :=
  if raw = "" then
    { st with cookieAuthMode := false }
  else
    { st with cookies := parseCookiePairs raw, cookieAuthMode := true }

/-- An HTTP response as inspected by the auth module: status code and the
`Location` header (absent header modelled as `""`, matching
`response.headers.get("Location", "")`). -/
structure HttpResponse where
  status : Nat
  location : String
deriving DecidableEq

/-- Lowercasing as used by Python `str.lower()` on the ASCII header values
involved here. -/
def strLower (s : String) : String :=
  String.mk (s.data.map Char.toLower)

/-- Whether the first list is an initial segment of the second. -/
def listStartsWith : List Char → List Char → Bool
  | [], _ => true
  | _ :: _, [] => false
  | a :: as, b :: bs => a = b && listStartsWith as bs

/-- Python substring test `needle in hay` on character lists. -/
def listContainsSub (needle : List Char) : List Char → Bool
  | [] => needle.isEmpty
  | c :: rest => listStartsWith needle (c :: rest) || listContainsSub needle rest

/-- Python substring test `needle in hay` on strings. -/
def strContainsSub (hay needle : String) : Bool :=
  listContainsSub needle.data hay.data

/-- `RegtechAuth._is_cookie_expired` (`regtech_auth.py` lines 89-98):
expired when status 401, or status 302 with `"login"` occurring in the
lowercased `Location` header; every other response is not expired. -/
def isCookieExpired (r : HttpResponse) : Bool :=
  if r.status = 401 then true
  else if r.status = 302 then strContainsSub (strLower r.location) "login"
  else false

/-- Outcome of one call to `collect_single_page` inside
`RegtechCollectorData.robust_collect_ips`: either a page of records, or one
of the exception classes distinguished by the `except` clauses
(`requests.exceptions.RequestException` — of which `ConnectionError` and
`Timeout` are subclasses — versus any other `Exception`). -/
inductive PageResult where
  | ok (recs : List ThreatRecord)
  | connError
  | timeout
  | reqError
  | otherError
deriving DecidableEq

/-- Whether the outcome is one of the exceptions caught by the
`requests.exceptions.RequestException` clause (connection errors and
timeouts are subclasses of it in `requests`). -/
def PageResult.isReqExc : PageResult → Bool
  | .ok _ => false
  | .connError => true
  | .timeout => true
  | .reqError => true
  | .otherError => false

/-- Whether the page request throws at all. -/
def PageResult.isThrow : PageResult → Bool
  | .ok _ => false
  | _ => true

/-- Observable trace of one run of the page loop of
`robust_collect_ips`: the records accumulated (before deduplication), the
successive sleep durations in seconds (inter-page delays and error
back-offs, in order), and the page number passed to each page request. -/
structure PageTrace where
  collected : List ThreatRecord
  sleeps : List Nat
  requestedPages : List Nat
deriving DecidableEq

/-- Page loop of `RegtechCollectorData.robust_collect_ips`
(`regtech_collector_data.py` lines 144-213), with `page_delay = 1`,
`max_page_errors = 5`, `max_pages = 100` as set in `__init__`.  The loop
runs `while page < max_pages and consecutive_errors < max_page_errors`:
each iteration sleeps `page_delay` when `page > 0`, requests the current
page from the deterministic source `src`, filters the returned records
through `is_valid_ip` (`v`), breaks on an empty filtered page, and on
success extends the accumulator and resets the error counter.  A
`RequestException` failure increments the counter and sleeps
`2 * consecutive_errors` while under the ceiling; any other exception
increments the counter and sleeps the constant `1`.  The cancellation check
is dead code in the source (`_cancel_event` is never set, and
`should_cancel(None)` is `False`), so it is omitted.  The structural `fuel`
argument strictly exceeds the number of loop iterations possible under the
two ceilings, so the `fuel = 0` base case is unreachable from the entry
point. -/
def collectLoop (v : String → Bool) (src : Nat → PageResult) :
    Nat → Nat → Nat → PageTrace
  | 0, _, _ => ⟨[], [], []⟩
  | fuel + 1, page, consec =>
    if page < 100 ∧ consec < 5 then
      let delay : List Nat := if 0 < page then [1] else []
      match src page with
      | .ok recs =>
        let valid := recs.filter (fun r => v r.ip)
        if valid.isEmpty then
          ⟨[], delay, [page]⟩
        else
          let t := collectLoop v src fuel (page + 1) 0
          ⟨valid ++ t.collected, delay ++ t.sleeps, page :: t.requestedPages⟩
      | e =>
        let c := consec + 1
        let backoff : List Nat :=
          if c < 5 then (if e.isReqExc then [2 * c] else [1]) else []
        let t := collectLoop v src fuel page c
        ⟨t.collected, delay ++ backoff ++ t.sleeps, page :: t.requestedPages⟩
    else ⟨[], [], []⟩

/-- `RegtechCollectorData.robust_collect_ips`: run the page loop from
`page = 0`, `consecutive_errors = 0`, then deduplicate the accumulated
records.  Fuel 1000 dominates the loop measure
`(100 - page) * 5 + (5 - consec) ≤ 505`. -/
def robustCollectIps (v : String → Bool) (src : Nat → PageResult) :
    PageTrace :=
  let t := collectLoop v src 1000 0 0
  ⟨removeDuplicates t.collected, t.sleeps, t.requestedPages⟩

/-- Outcome of one iteration of the session-retry loop of
`RegtechCollector._collect_with_login` (`regtech_collector_core.py` lines
151-216): a successful login followed by a page-loop result, or one of the
three exception classes distinguished there (`ConnectionError`, `Timeout`,
any other `Exception` — the latter also covers the exception raised on
login failure). -/
inductive SessionAttempt where
  | ok (ips : List ThreatRecord)
  | connError
  | timeout
  | err
deriving DecidableEq

/-- Session-retry loop of `RegtechCollector._collect_with_login` with
`session_retry_limit = 3`: `while session_retry_count < 3`, attempt a
session (create, login, collect, save); success breaks out returning the
collected list, a `ConnectionError` sleeps `5 * session_retry_count` after
incrementing the counter (while under the limit), a `Timeout` sleeps
`3 * session_retry_count`, any other exception sleeps
`2 * session_retry_count`.  Exhausting the limit raises
`Exception(f"최대 재시도 횟수 (3) 초과")`, modelled as `Except.error`.
The loop guard `session_retry_count < 3` is encoded structurally as the
remaining-iteration count `fuel = 3 - session_retry_count` (entered with
`fuel = 3`; `fuel = 0` is exactly `session_retry_count ≥ 3`, the raising
exit).  Returns the outcome together with the ordered back-off sleep
durations.
The persistence call on the success path is modelled separately by
`saveToDatabase` (it does not change the returned list or control flow). -/
def loginLoop (att : Nat → SessionAttempt) :
    Nat → Nat → Nat → Except String (List ThreatRecord) × List Nat
  | 0, _, _ => (.error "최대 재시도 횟수 (3) 초과", [])
  | fuel + 1, idx, count =>
    match att idx with
    | .ok ips => (.ok ips, [])
    | .connError =>
      let c := count + 1
      let sl : List Nat := if c < 3 then [5 * c] else []
      let t := loginLoop att fuel (idx + 1) c
      (t.1, sl ++ t.2)
    | .timeout =>
      let c := count + 1
      let sl : List Nat := if c < 3 then [3 * c] else []
      let t := loginLoop att fuel (idx + 1) c
      (t.1, sl ++ t.2)
    | .err =>
      let c := count + 1
      let sl : List Nat := if c < 3 then [2 * c] else []
      let t := loginLoop att fuel (idx + 1) c
      (t.1, sl ++ t.2)

/-- `RegtechCollector._collect_with_login` entry: the retry loop starting
with `session_retry_count = 0` and `3 - 0` iterations available. -/
def collectWithLogin (att : Nat → SessionAttempt) :
    Except String (List ThreatRecord) × List Nat :=
  loginLoop att 3 0 0

/-- Environment driving one run of `RegtechCollector._collect_data`
(`regtech_collector_core.py` lines 108-149): the initial
`cookie_auth_mode` flag, the result of the n-th `auto_extract_cookies`
call (`none` models a falsy return, i.e. no cookie string), the result of
the n-th `collect_with_cookies` call, and the session attempts consumed by
`_collect_with_login`. -/
structure OrchEnv where
  initCookieMode : Bool
  extractResult : Nat → Option String
  collectResult : Nat → List ThreatRecord
  attempts : Nat → SessionAttempt

/-- Observable outcome of `_collect_data`: the returned list (or the
exception it raises, as `Except.error`), how many times
`auto_extract_cookies` was called, how many times `collect_with_cookies`
was called, and whether the run fell through to `_collect_with_login`. -/
structure OrchOutcome where
  result : Except String (List ThreatRecord)
  extractCalls : Nat
  cookieCollectCalls : Nat
  loginUsed : Bool

/-- Cookie-mode phase of `_collect_data` (lines 126-147), entered with
cookie mode enabled after `k` extraction calls so far: run
`collect_with_cookies` once; on a non-empty result return it; on an empty
result call `auto_extract_cookies` once more — if it yields a cookie
string, set it and retry `collect_with_cookies` exactly once, returning
that (possibly empty) result, and if it yields nothing, fall through to
`_collect_with_login`. -/
def cookiePhase (env : OrchEnv) (k : Nat) : OrchOutcome :=
  let d0 := env.collectResult 0
  if d0.isEmpty then
    match env.extractResult k with
    | some _ => ⟨.ok (env.collectResult 1), k + 1, 2, false⟩
    | none => ⟨(collectWithLogin env.attempts).1, k + 1, 1, true⟩
  else ⟨.ok d0, k, 1, false⟩

/-- `RegtechCollector._collect_data` (lines 108-149): when cookie mode is
off, attempt one automatic extraction — success enables cookie mode and
enters the cookie phase, failure falls through to `_collect_with_login`;
when cookie mode is already on, enter the cookie phase directly. -/
def collectData (env : OrchEnv) : OrchOutcome :=
  if env.initCookieMode then cookiePhase env 0
  else
    match env.extractResult 0 with
    | some _ => cookiePhase env 1
    | none => ⟨(collectWithLogin env.attempts).1, 1, 0, true⟩

/-- Result envelope returned by `RegtechCollector.collect_from_web`
(`regtech_collector_core.py` lines 314-352). -/
structure Envelope where
  success : Bool
  data : List ThreatRecord
  count : Nat
  error : Option String
  message : String
deriving DecidableEq

/-- `RegtechCollector.collect_from_web`: drive `_collect_data` to
completion inside a `try/except` that catches every exception; a normal
return yields a `success=True` envelope carrying the data and its length,
any exception yields a `success=False` envelope with empty data, zero
count and the exception text — nothing propagates to the caller. -/
def collectFromWeb (env : OrchEnv) : Envelope :=
  match (collectData env).result with
  | .ok d =>
    ⟨true, d, d.length, none,
      "REGTECH에서 " ++ toString d.length ++ "개 IP 수집 완료"⟩
  | .error e => ⟨false, [], 0, some e, "REGTECH 수집 중 오류: " ++ e⟩

/-- A row of the `blacklist_ips` table as written by
`RegtechCollector.save_to_database` (the `attack_type` value is inserted
into the `notes` column; timestamps and the date-string-to-date
normalization with its now() fallback are elided, no claim depends on
them). -/
structure DbRow where
  ip_address : String
  source : String
  detection_date : String
  threat_level : String
  country : String
  notes : String
deriving DecidableEq

/-- Row construction inside the batch loop of `save_to_database`
(`regtech_collector_core.py` lines 245-283), with the dict-get defaults
`country = "Unknown"`, `attack_type = "blacklist"`,
`threat_level = "MEDIUM"` (an absent key is modelled as `""`). -/
def recordToRow (r : ThreatRecord) : DbRow :=
  ⟨r.ip, "REGTECH", r.detection_date,
    if r.threat_level = "" then "MEDIUM" else r.threat_level,
    if r.country = "" then "Unknown" else r.country,
    if r.attack_type = "" then "blacklist" else r.attack_type⟩

/-- `RegtechCollector.save_to_database` (`regtech_collector_core.py` lines
218-312) against a database state modelled as the list of rows: an empty
input returns 0 immediately; otherwise the function executes
`DELETE FROM blacklist_ips WHERE source = 'REGTECH'`, builds one row per
input record whose `ip` is truthy, bulk-inserts them and commits,
returning `cur.rowcount` (the number of inserted rows).  When every record
lacks an `ip`, no insert and no commit happen, so closing the connection
rolls the delete back and the state is unchanged with 0 returned.  (The
exception path likewise rolls back and returns 0.) -/
def saveToDatabase (db : List DbRow) (recs : List ThreatRecord) :
    Nat × List DbRow :=
  if recs.isEmpty then (0, db)
  else
    let kept := db.filter (fun r => r.source ≠ "REGTECH")
    let batch := (recs.filter (fun r => r.ip ≠ "")).map recordToRow
    if batch.isEmpty then (0, db)
    else (batch.length, kept ++ batch)

/-- Word character in the sense of the regex metacharacter `\b` used in
`process_html_response` (ASCII fragment: letters, digits, underscore). -/
def isWordChar (c : Char) : Bool :=
  c.isAlphanum || c = '_'

/-- Match `\d{1,3}` maximally at the head of the list; the regex
back-tracking of `\d{1,3}` followed by a non-digit token is equivalent to
requiring the maximal digit run to have length 1 to 3. -/
def matchOctet (cs : List Char) : Option (List Char × List Char) :=
  let ds := cs.takeWhile Char.isDigit
  if ds.length = 0 ∨ 3 < ds.length then none
  else some (ds, cs.dropWhile Char.isDigit)

/-- Match the pattern `\d{1,3}\.\d{1,3}\.\d{1,3}\.\d{1,3}\b` at the head
of the list, returning the matched characters and the remainder.  The
leading `\b` is checked by the caller. -/
def matchIpAt (cs : List Char) : Option (List Char × List Char) := do
  let (d1, r1) ← matchOctet cs
  match r1 with
  | '.' :: r2 =>
    let (d2, r3) ← matchOctet r2
    match r3 with
    | '.' :: r4 =>
      let (d3, r5) ← matchOctet r4
      match r5 with
      | '.' :: r6 =>
        let (d4, r7) ← matchOctet r6
        let m := d1 ++ '.' :: d2 ++ '.' :: d3 ++ '.' :: d4
        match r7 with
        | [] => some (m, [])
        | c :: _ => if isWordChar c then none else some (m, r7)
      | _ => none
    | _ => none
  | _ => none

/-- Left-to-right non-overlapping scan of
`re.findall(r"\b(\d{1,3}\.\d{1,3}\.\d{1,3}\.\d{1,3})\b", text)`
(`regtech_data_processor.py` line 40): at each position whose predecessor
is not a word character, try the dotted-quad pattern; on a match, emit it
and resume after its end.  Fuel is the list length plus one; every step
consumes at least one character, so the base case is unreachable from the
entry point. -/
def scanIps : Nat → Bool → List Char → List String
  | 0, _, _ => []
  | _ + 1, _, [] => []
  | fuel + 1, prevWord, c :: rest =>
    if ¬prevWord ∧ c.isDigit then
      match matchIpAt (c :: rest) with
      | some (m, rest') => String.mk m :: scanIps fuel true rest'
      | none => scanIps fuel (isWordChar c) rest
    else scanIps fuel (isWordChar c) rest

/-- All dotted-quad matches found in a text. -/
def findIpv4 (text : String) : List String :=
  scanIps (text.length + 1) false text.data

/-- `RegtechDataProcessor.process_html_response`
(`regtech_data_processor.py` lines 31-60) applied to the markup-stripped
page text (the BeautifulSoup `get_text()` step is an external library and
is taken as given): every regex match that passes the injected
`validation_utils.is_valid_ip` check (`validIp`, `none` when no
validation utility is set — in which case nothing is emitted) becomes a
record with the constant fields `threat_level = "medium"`,
`source = "REGTECH_HTML"`, `detection_date = "2025-08-30"`. -/
def processHtmlResponse (validIp : Option (String → Bool)) (text : String) :
    List ThreatRecord :=
  ((findIpv4 text).filter
      (fun ip => match validIp with | some f => f ip | none => false)).map
    (fun ip => ⟨ip, "medium", "", "", "2025-08-30", "REGTECH_HTML"⟩)

/-!
Helper lemmas shared by the claim theorems.
-/

/-- Deduplication is idempotent for any starting seen-set: a second pass
over the output of a first pass changes nothing. -/
theorem rdGo_idem (seen : List String) (l : List ThreatRecord) :
    rdGo seen (rdGo seen l) = rdGo seen l := by
  induction l generalizing seen with
  | nil => rfl
  | cons item rest ih =>
    by_cases h : item.ip ≠ "" ∧ item.ip ∉ seen
    · simp only [rdGo, if_pos h, ih]
    · simp only [rdGo, if_neg h, ih]

/-- Every page number handed to a page request by the page loop is below
the `max_pages = 100` ceiling, whatever the source does and whatever the
loop state is: the guard is checked before each request. -/
theorem collectLoop_pages_lt_100 (v : String → Bool) (src : Nat → PageResult) :
    ∀ fuel page consec,
      ∀ p ∈ (collectLoop v src fuel page consec).requestedPages, p < 100 := by
  intro fuel
  induction fuel with
  | zero =>
    intro page consec p hp
    simp [collectLoop] at hp
  | succ f ih =>
    intro page consec p hp
    simp only [collectLoop] at hp
    split at hp
    · rename_i hg
      rcases hs : src page with recs | _ | _ | _ | _ <;> rw [hs] at hp <;>
        simp only [List.mem_cons, List.mem_singleton] at hp
      · split at hp
        · simp only [List.mem_singleton] at hp
          omega
        · simp only [List.mem_cons] at hp
          rcases hp with rfl | hp
          · omega
          · exact ih (page + 1) 0 p hp
      all_goals
        rcases hp with rfl | hp
        · omega
        · exact ih page _ p hp
    · simp at hp

/-!
Claim theorems.
-/

/-- Claim C3, counterexample: the non-empty but not key=value-paired input
`"abc"` leaves cookie mode ENABLED (with an empty mapping), refuting the
claim that every malformed input disables cookie mode. -/
theorem c3_malformed_enables_cookie_mode :
    (setCookieString ⟨false, []⟩ "abc").cookieAuthMode = true ∧
      (setCookieString ⟨false, []⟩ "abc").cookies = [] := by
  decide

/-- Claim C3 (amended): `set_cookie_string("a=1; b=2")` enables cookie mode
with the mapping a up to 1, b up to 2; `set_cookie_string("")` on a fresh
auth state leaves cookie mode disabled with an empty mapping; and for
EVERY input the operation is total (never raises), enabling cookie mode
exactly when the input is non-empty — malformed non-empty input therefore
also enables cookie mode, with whatever (possibly empty) pairs were
found. -/
theorem c3_cookie_parsing_amended :
    setCookieString ⟨false, []⟩ "a=1; b=2" =
        ⟨true, [("a", "1"), ("b", "2")]⟩ ∧
      setCookieString ⟨false, []⟩ "" = ⟨false, []⟩ ∧
      ∀ (st : AuthState) (raw : String),
        (setCookieString st raw).cookieAuthMode = decide (raw ≠ "") := by
  refine ⟨by decide, by decide, ?_⟩
  intro st raw
  by_cases h : raw = "" <;> simp [setCookieString, h]

/-- Claim C4: `_is_cookie_expired` returns true exactly when the status is
401, or the status is 302 and the `Location` header contains `"login"`
case-insensitively; in particular a 200 is not expired, a 302 to
`/dashboard` is not expired, and a 302 to `/login?x=1` or `/LOGIN?x=1` is
expired. -/
theorem c4_cookie_expiry_detection :
    (∀ r : HttpResponse,
        isCookieExpired r =
          (decide (r.status = 401) ||
            (decide (r.status = 302) &&
              strContainsSub (strLower r.location) "login"))) ∧
      isCookieExpired ⟨401, ""⟩ = true ∧
      isCookieExpired ⟨302, "/login?x=1"⟩ = true ∧
      isCookieExpired ⟨302, "/LOGIN?x=1"⟩ = true ∧
      isCookieExpired ⟨200, "/login"⟩ = false ∧
      isCookieExpired ⟨302, "/dashboard"⟩ = false := by
  refine ⟨?_, by decide, by decide, by decide, by decide, by decide⟩
  intro r
  by_cases h1 : r.status = 401
  · simp [isCookieExpired, h1]
  · by_cases h2 : r.status = 302 <;> simp [isCookieExpired, h1, h2]

/-- Claim C8: `remove_duplicates` is a stable, first-occurrence-wins
deduplication keyed by ip — on the record list with ips 1.1.1.1, 1.1.1.1,
2.2.2.2 it returns exactly the FIRST 1.1.1.1 record (country KR below,
distinguishing it from the second occurrence) followed by the 2.2.2.2
record — and it is idempotent on every list. -/
theorem c8_remove_duplicates_stable_idempotent :
    removeDuplicates
        [⟨"1.1.1.1", "", "KR", "", "", ""⟩, ⟨"1.1.1.1", "", "US", "", "", ""⟩,
          ⟨"2.2.2.2", "", "", "", "", ""⟩] =
        [⟨"1.1.1.1", "", "KR", "", "", ""⟩, ⟨"2.2.2.2", "", "", "", "", ""⟩] ∧
      ∀ l : List ThreatRecord,
        removeDuplicates (removeDuplicates l) = removeDuplicates l := by
  refine ⟨by decide, ?_⟩
  intro l
  exact rdGo_idem [] l

/-- Claim C10: every record emitted by the HTML response processor carries
the constant fields threat_level "medium", source "REGTECH_HTML" and the
fixed literal detection_date "2025-08-30", independent of the current date
and of anything in the page text beyond the matched ip itself. -/
theorem c10_html_constant_fields (validIp : Option (String → Bool))
    (text : String) (r : ThreatRecord)
    (hr : r ∈ processHtmlResponse validIp text) :
    r.threat_level = "medium" ∧ r.source = "REGTECH_HTML" ∧
      r.detection_date = "2025-08-30" := by
  rcases List.mem_map.mp hr with ⟨ip, -, rfl⟩
  exact ⟨rfl, rfl, rfl⟩

/-- Witness for C10 at a concrete scraped text containing the ip
1.2.3.4. -/
theorem c10_html_constant_fields_witness :
    (⟨"1.2.3.4", "medium", "", "", "2025-08-30", "REGTECH_HTML"⟩ :
        ThreatRecord).threat_level = "medium" ∧
      (⟨"1.2.3.4", "medium", "", "", "2025-08-30", "REGTECH_HTML"⟩ :
        ThreatRecord).source = "REGTECH_HTML" ∧
      (⟨"1.2.3.4", "medium", "", "", "2025-08-30", "REGTECH_HTML"⟩ :
        ThreatRecord).detection_date = "2025-08-30" :=
  c10_html_constant_fields (some (fun _ => true)) "ip 1.2.3.4 end"
    ⟨"1.2.3.4", "medium", "", "", "2025-08-30", "REGTECH_HTML"⟩ (by decide)

/-- Claim C1, counterexample: `save_to_database` with a non-empty validated
batch deletes a previously stored REGTECH row whose ip (9.9.9.9) does not
even occur in the batch — persistence is delete-then-insert scoped to the
whole source, not an upsert keyed on ip, and no detection counter exists
to increment. -/
theorem c1_save_deletes_previous_rows :
    (saveToDatabase [⟨"9.9.9.9", "REGTECH", "2025-01-01", "HIGH", "KR", "n"⟩]
          [⟨"1.1.1.1", "", "", "", "", ""⟩]).2 =
        [⟨"1.1.1.1", "REGTECH", "", "MEDIUM", "Unknown", "blacklist"⟩] ∧
      ⟨"9.9.9.9", "REGTECH", "2025-01-01", "HIGH", "KR", "n"⟩ ∉
        (saveToDatabase [⟨"9.9.9.9", "REGTECH", "2025-01-01", "HIGH", "KR", "n"⟩]
            [⟨"1.1.1.1", "", "", "", "", ""⟩]).2 := by
  decide

/-- Claim C1 (amended): for every non-empty batch, `save_to_database` first
deletes ALL previously stored rows whose source is REGTECH, then inserts
one fresh row per record with a truthy ip (defaults MEDIUM/Unknown/
blacklist filled in, `attack_type` stored in the notes column), returning
the number of rows inserted; rows of other sources are untouched; when
every record lacks an ip nothing is committed and the state is unchanged
with 0 returned.  No in-place update or counter increment occurs. -/
theorem c1_save_is_delete_then_insert (db : List DbRow)
    (recs : List ThreatRecord) (h : recs ≠ []) :
    saveToDatabase db recs =
      if ((recs.filter (fun r => r.ip ≠ "")).map recordToRow).isEmpty then
        (0, db)
      else
        ((recs.filter (fun r => r.ip ≠ "")).length,
          db.filter (fun r => r.source ≠ "REGTECH") ++
            (recs.filter (fun r => r.ip ≠ "")).map recordToRow) := by
  unfold saveToDatabase
  rw [if_neg (by simpa using h)]
  simp

/-- Witness for C1 at a one-row database and a one-record batch. -/
theorem c1_save_is_delete_then_insert_witness :
    saveToDatabase [⟨"9.9.9.9", "OTHER", "d", "t", "c", "n"⟩]
        [⟨"1.1.1.1", "high", "US", "phishing", "2025-01-02", "x"⟩] =
      (1, [⟨"9.9.9.9", "OTHER", "d", "t", "c", "n"⟩,
        ⟨"1.1.1.1", "REGTECH", "2025-01-02", "high", "US", "phishing"⟩]) := by
  rw [c1_save_is_delete_then_insert _ _ (by decide)]
  decide

/-- Claim C2, counterexample: cookie mode is on, the first cookie-based
pass yields zero records, and re-extraction produces a cookie that is
again expired (the retried collection also yields zero records).  The
claim requires a fall-through to login-based collection, but the code
returns the empty retry result without ever entering
`_collect_with_login` — even though login (here stubbed to succeed with
one record) would have produced data. -/
theorem c2_no_login_fallthrough_after_reextraction :
    (collectData
          ⟨true, fun _ => some "regtech-front=x", fun _ => [],
            fun _ => .ok [⟨"7.7.7.7", "", "", "", "", ""⟩]⟩).loginUsed =
        false ∧
      (collectData
          ⟨true, fun _ => some "regtech-front=x", fun _ => [],
            fun _ => .ok [⟨"7.7.7.7", "", "", "", "", ""⟩]⟩).result =
        .ok [] ∧
      (collectData
          ⟨true, fun _ => some "regtech-front=x", fun _ => [],
            fun _ => .ok [⟨"7.7.7.7", "", "", "", "", ""⟩]⟩).extractCalls =
        1 := by
  refine ⟨rfl, rfl, rfl⟩

/-- Claim C2 (amended): when a run starts in cookie mode and the first
cookie-based pass yields zero records, the orchestrator attempts exactly
one cookie re-extraction; if the re-extraction yields no cookie string,
the run falls through to login-based collection without raising (its
outcome is exactly the login outcome); if the re-extraction yields a
cookie string — expired or not — collection is retried exactly once and
that possibly-empty result is returned WITHOUT falling through to
login. -/
theorem c2_empty_result_recovery (env : OrchEnv)
    (hmode : env.initCookieMode = true) (h0 : env.collectResult 0 = []) :
    (collectData env).extractCalls = 1 ∧
      (env.extractResult 0 = none →
        (collectData env).loginUsed = true ∧
          (collectData env).result = (collectWithLogin env.attempts).1) ∧
      ∀ s, env.extractResult 0 = some s →
        (collectData env).loginUsed = false ∧
          (collectData env).result = .ok (env.collectResult 1) ∧
          (collectData env).cookieCollectCalls = 2 := by
  have hc : collectData env = cookiePhase env 0 := by
    simp [collectData, hmode]
  rcases hex : env.extractResult 0 with _ | s
  · refine ⟨?_, fun _ => ⟨?_, ?_⟩, fun s hs => ?_⟩
    · rw [hc]; simp [cookiePhase, h0, hex]
    · rw [hc]; simp [cookiePhase, h0, hex]
    · rw [hc]; simp [cookiePhase, h0, hex]
    · cases hs
  · refine ⟨?_, fun hn => ?_, fun s' hs' => ⟨?_, ?_, ?_⟩⟩
    · rw [hc]; simp [cookiePhase, h0, hex]
    · cases hn
    · rw [hc]; simp [cookiePhase, h0, hex]
    · rw [hc]; simp [cookiePhase, h0, hex]
    · rw [hc]; simp [cookiePhase, h0, hex]

/-- Witness for C2 at a concrete environment: cookie mode on, empty first
pass, failing re-extraction, login attempts immediately succeeding. -/
theorem c2_empty_result_recovery_witness :
    (collectData
          ⟨true, fun _ => none, fun _ => [],
            fun _ => .ok [⟨"7.7.7.7", "", "", "", "", ""⟩]⟩).extractCalls =
        1 ∧
      ((⟨true, fun _ => none, fun _ => [],
            fun _ => .ok [⟨"7.7.7.7", "", "", "", "", ""⟩]⟩ :
          OrchEnv).extractResult 0 = none →
        (collectData
              ⟨true, fun _ => none, fun _ => [],
                fun _ => .ok [⟨"7.7.7.7", "", "", "", "", ""⟩]⟩).loginUsed =
            true ∧
          (collectData
                ⟨true, fun _ => none, fun _ => [],
                  fun _ => .ok [⟨"7.7.7.7", "", "", "", "", ""⟩]⟩).result =
            (collectWithLogin
                (⟨true, fun _ => none, fun _ => [],
                    fun _ => .ok [⟨"7.7.7.7", "", "", "", "", ""⟩]⟩ :
                  OrchEnv).attempts).1) ∧
      ∀ s,
        (⟨true, fun _ => none, fun _ => [],
              fun _ => .ok [⟨"7.7.7.7", "", "", "", "", ""⟩]⟩ :
            OrchEnv).extractResult 0 = some s →
          (collectData
                ⟨true, fun _ => none, fun _ => [],
                  fun _ => .ok [⟨"7.7.7.7", "", "", "", "", ""⟩]⟩).loginUsed =
              false ∧
            (collectData
                  ⟨true, fun _ => none, fun _ => [],
                    fun _ => .ok [⟨"7.7.7.7", "", "", "", "", ""⟩]⟩).result =
              .ok ((⟨true, fun _ => none, fun _ => [],
                    fun _ => .ok [⟨"7.7.7.7", "", "", "", "", ""⟩]⟩ :
                  OrchEnv).collectResult 1) ∧
            (collectData
                  ⟨true, fun _ => none, fun _ => [],
                    fun _ =>
                      .ok [⟨"7.7.7.7", "", "", "", "", ""⟩]⟩).cookieCollectCalls =
              2 :=
  c2_empty_result_recovery
    ⟨true, fun _ => none, fun _ => [],
      fun _ => .ok [⟨"7.7.7.7", "", "", "", "", ""⟩]⟩ rfl rfl

/-- Claim C9: `collect_from_web` never lets an exception escape: every run
produces either a success envelope, or a failure envelope with
`success=False`, empty data, zero count and an error string — and in
particular exhausting the session retry budget of 3 (here: connection
errors on every attempt, with no cookie available and extraction failing)
yields exactly the failure envelope carrying the terminal retry-limit
message. -/
theorem c9_collect_from_web_envelope :
    (∀ env : OrchEnv,
        (collectFromWeb env).success = true ∨
          ((collectFromWeb env).success = false ∧
            (collectFromWeb env).data = [] ∧
            (collectFromWeb env).count = 0 ∧
            (collectFromWeb env).error ≠ none)) ∧
      collectFromWeb ⟨false, fun _ => none, fun _ => [], fun _ => .connError⟩ =
        ⟨false, [], 0, some "최대 재시도 횟수 (3) 초과",
          "REGTECH 수집 중 오류: 최대 재시도 횟수 (3) 초과"⟩ := by
  constructor
  · intro env
    rcases h : (collectData env).result with e | d
    · right
      simp [collectFromWeb, h]
    · left
      simp [collectFromWeb, h]
  · decide

/-- Claim C5, counterexample: a connection error on every page request
makes the PAGE loop sleep 2, 4, 6, 8 seconds (base 2 — handled by the
single `RequestException` clause), not the 5, 10, 15, 20 seconds that a
5-second connection-error base would give. -/
theorem c5_page_backoff_counterexample :
    (robustCollectIps (fun _ => true)
          (fun _ => PageResult.connError)).sleeps = [2, 4, 6, 8] ∧
      ([2, 4, 6, 8] : List Nat) ≠ [5 * 1, 5 * 2, 5 * 3, 5 * 4] := by
  decide

/-- Claim C5 (amended): back-off is deterministic in the consecutive-error
count, but the page loop does not distinguish error kinds the way the
claim says: every `RequestException` there (connection errors and
timeouts included) sleeps `2 * consecutive_errors`, and any other
exception sleeps a constant 1 second.  The 5s/3s/2s bases
(connection/timeout/other, multiplied by the retry count) belong to the
outer session-retry loop of `_collect_with_login`.  Witnessed by the full
sleep traces of always-failing sources: page loop [2,4,6,8] for
connection errors and for timeouts, [1,1,1,1] for other exceptions;
session loop [5,10] / [3,6] / [2,4]. -/
theorem c5_backoff_bases_amended :
    (robustCollectIps (fun _ => true)
          (fun _ => PageResult.connError)).sleeps = [2, 4, 6, 8] ∧
      (robustCollectIps (fun _ => true)
          (fun _ => PageResult.timeout)).sleeps = [2, 4, 6, 8] ∧
      (robustCollectIps (fun _ => true)
          (fun _ => PageResult.otherError)).sleeps = [1, 1, 1, 1] ∧
      (collectWithLogin (fun _ => SessionAttempt.connError)).2 = [5, 10] ∧
      (collectWithLogin (fun _ => SessionAttempt.timeout)).2 = [3, 6] ∧
      (collectWithLogin (fun _ => SessionAttempt.err)).2 = [2, 4] := by
  decide

/-- Claim C6: for a page source whose pages 0 through 2 yield records that
survive the validity filter and whose page 3 is empty, the page loop
requests exactly pages 0, 1, 2, 3, sleeps the inter-page delay three
times, and returns exactly the deduplicated concatenation of the filtered
pages 0-2 — halting at the first empty page; and for EVERY source, in any
error state, no request ever names a page number at or beyond the
100-page ceiling. -/
theorem c6_page_loop_halts_at_empty_page (v : String → Bool)
    (src : Nat → PageResult) (l0 l1 l2 : List ThreatRecord)
    (h0 : src 0 = .ok l0) (h1 : src 1 = .ok l1) (h2 : src 2 = .ok l2)
    (h3 : src 3 = .ok [])
    (n0 : (l0.filter (fun r => v r.ip)).isEmpty = false)
    (n1 : (l1.filter (fun r => v r.ip)).isEmpty = false)
    (n2 : (l2.filter (fun r => v r.ip)).isEmpty = false) :
    robustCollectIps v src =
        ⟨removeDuplicates (l0.filter (fun r => v r.ip) ++
            (l1.filter (fun r => v r.ip) ++ l2.filter (fun r => v r.ip))),
          [1, 1, 1], [0, 1, 2, 3]⟩ ∧
      ∀ src' : Nat → PageResult,
        ∀ p ∈ (robustCollectIps v src').requestedPages, p < 100 := by
  constructor
  · simp [robustCollectIps, collectLoop, h0, h1, h2, h3, n0, n1, n2]
  · intro src' p hp
    exact collectLoop_pages_lt_100 v src' 1000 0 0 p hp

/-- Witness for C6 at a concrete three-page source. -/
theorem c6_page_loop_halts_at_empty_page_witness :
    robustCollectIps (fun _ => true)
        (fun p =>
          if p = 0 then .ok [⟨"10.0.0.1", "", "", "", "", ""⟩]
          else if p = 1 then .ok [⟨"10.0.0.2", "", "", "", "", ""⟩]
          else if p = 2 then .ok [⟨"10.0.0.3", "", "", "", "", ""⟩]
          else .ok []) =
      ⟨[⟨"10.0.0.1", "", "", "", "", ""⟩, ⟨"10.0.0.2", "", "", "", "", ""⟩,
          ⟨"10.0.0.3", "", "", "", "", ""⟩],
        [1, 1, 1], [0, 1, 2, 3]⟩ := by
  rw [(c6_page_loop_halts_at_empty_page (fun _ => true) _
      [⟨"10.0.0.1", "", "", "", "", ""⟩] [⟨"10.0.0.2", "", "", "", "", ""⟩]
      [⟨"10.0.0.3", "", "", "", "", ""⟩] rfl rfl rfl rfl (by decide)
      (by decide) (by decide)).1]
  decide

/-- Claim C7: against a source that throws on every page request, the page
loop halts after exactly `max_page_errors = 5` consecutive failures — five
requests, all for page 0 — and the collected records are exactly those
gathered before the failures began, here none. -/
theorem c7_error_ceiling_halts (v : String → Bool) (src : Nat → PageResult)
    (h : ∀ p, (src p).isThrow = true) :
    (robustCollectIps v src).collected = [] ∧
      (robustCollectIps v src).requestedPages = [0, 0, 0, 0, 0] := by
  have h0 := h 0
  rcases hs : src 0 with r | _ | _ | _ | _
  · rw [hs] at h0
    simp [PageResult.isThrow] at h0
  all_goals
    simp [robustCollectIps, collectLoop, hs, removeDuplicates, rdGo]

/-- Witness for C7 at a source that always throws a RequestException. -/
theorem c7_error_ceiling_halts_witness :
    (robustCollectIps (fun _ => true)
          (fun _ => PageResult.reqError)).collected = [] ∧
      (robustCollectIps (fun _ => true)
          (fun _ => PageResult.reqError)).requestedPages = [0, 0, 0, 0, 0] :=
  c7_error_ceiling_halts (fun _ => true) (fun _ => PageResult.reqError)
    (fun _ => rfl)
